import Mathlib

/-!
Shallow embedding of `src/consumers/project_consumer_hansen.py`.

The script keeps module-level aggregation state (`year_list`,
`population_list`, `year_count`, `avg_population` — all `defaultdict`s —
plus the plain lists `years` and `populations` and a matplotlib axes) and
processes one JSON payload at a time with `process_message`, which calls
`update_chart`.  We embed the state as `AggState`, JSON values as `JVal`
(the result of `json.loads`; a payload that fails to decode is modelled as
`none`), Python exceptions as `PyErr`, and the matplotlib axes content as a
`Canvas` (the list of plotted lines).  Python `defaultdict`s are modelled
as `DMap`: a total value function plus the list of keys actually present,
so that key insertion by `defaultdict.__getitem__` is visible.
-/

/-- A JSON value as produced by Python's `json.loads`. -/
inductive JVal : Type
  | null : JVal
  | boolean : Bool → JVal
  | num : ℚ → JVal
  | str : String → JVal
  | arr : List JVal → JVal
  | obj : List (String × JVal) → JVal

/-- The Python exceptions that can arise inside `process_message`:
`json.JSONDecodeError` from `json.loads`, `KeyError` from a missing dict
field, `ValueError` from `int()` on a non-numeric string, `TypeError` from
`int()` on a non-convertible value or from `+` on incompatible types. -/
inductive PyErr : Type
  | jsonDecode : PyErr
  | keyErr : PyErr
  | valueErr : PyErr
  | typeErr : PyErr
deriving DecidableEq

/-- All four modelled exceptions are subclasses of Python's `Exception`
(none is a `BaseException`-only exception like `KeyboardInterrupt`), so the
`except Exception` clause of `process_message` catches each of them. -/
def isPyException : PyErr → Bool
  | PyErr.jsonDecode => true
  | PyErr.keyErr => true
  | PyErr.valueErr => true
  | PyErr.typeErr => true

/-- Python dict lookup on the dict built by `json.loads`: with duplicate
keys the last occurrence wins, so we look up in the reversed field list. -/
def lookupLast (key : String) (fields : List (String × JVal)) : Option JVal :=
  fields.reverse.lookup key

/-- Digits of a decimal numeral, most significant first; `none` when the
list is empty or contains a non-digit. -/
def pyDigitsAux : List Char → Nat → Option Nat
  | [], acc => some acc
  | c :: cs, acc =>
    if c.isDigit then pyDigitsAux cs (acc * 10 + (c.toNat - 48)) else none

/-- Parse a nonempty all-digit character list as a natural number. -/
def pyDigits (cs : List Char) : Option Nat :=
  if cs.isEmpty then none else pyDigitsAux cs 0

/-- Python `int(s)` on a string: strip surrounding whitespace, allow one
optional sign, then require a nonempty digit string; `none` models the
`ValueError` raised otherwise. -/
def pyStrToInt (s : String) : Option Int :=
  let cs := ((s.toList.dropWhile Char.isWhitespace).reverse.dropWhile
    Char.isWhitespace).reverse
  match cs with
  | [] => none
  | c :: rest =>
    if c = '-' then (pyDigits rest).map (fun n => -(n : Int))
    else if c = '+' then (pyDigits rest).map (fun n => (n : Int))
    else (pyDigits cs).map (fun n => (n : Int))

/-- Truncation toward zero, as Python `int()` applied to a float. -/
def intTrunc (q : ℚ) : Int :=
  if 0 ≤ q then Rat.floor q else -Rat.floor (-q)

/-- Python `int(v)` on a decoded JSON value: numbers truncate toward zero,
booleans give 0/1, strings parse as integer literals; anything else raises
(`none`). -/
def pyInt : JVal → Option Int
  | JVal.num q => some (intTrunc q)
  | JVal.boolean b => some (if b then 1 else 0)
  | JVal.str s => pyStrToInt s
  | _ => none

/-- The exception `int(v)` raises when it fails: `ValueError` for a string,
`TypeError` for any other type. -/
def pyIntErr : JVal → PyErr
  | JVal.str _ => PyErr.valueErr
  | _ => PyErr.typeErr

/-- Python truthiness of a decoded JSON value (`if year and population`). -/
def pyTruthy : JVal → Bool
  | JVal.null => false
  | JVal.boolean b => b
  | JVal.num q => decide (q ≠ 0)
  | JVal.str s => !s.isEmpty
  | JVal.arr l => !l.isEmpty
  | JVal.obj l => !l.isEmpty

/-- Python `acc + v` for a numeric accumulator: succeeds when `v` is a
number or a bool (bools are numeric in Python); `none` models the
`TypeError` raised otherwise. -/
def pyAddNum (acc : ℚ) : JVal → Option ℚ
  | JVal.num q => some (acc + q)
  | JVal.boolean b => some (acc + if b then 1 else 0)
  | _ => none

/-- A Python `defaultdict` with `Int` keys: the total function `val`
returns the stored value, or the default for keys not in `keys`. -/
structure DMap (β : Type) : Type where
  keys : List Int
  val : Int → β

/-- `d[k] = v`: store `v` at `k`, adding `k` to the key list if absent. -/
def DMap.set {β : Type} (d : DMap β) (k : Int) (v : β) : DMap β :=
  { keys := if k ∈ d.keys then d.keys else d.keys ++ [k],
    val := fun x => if x = k then v else d.val x }

/-- A `defaultdict` read (`d[k]`) inserts the default when the key is
missing; this is the state after such a read, value unchanged. -/
def DMap.touch {β : Type} (d : DMap β) (k : Int) : DMap β :=
  d.set k (d.val k)

/-- What `update_chart` appends to the global `populations` list: at its
only call site (`process_message` line 179) the argument is the
`populations` list object itself, modelled by `popsList`; `jval` covers a
hypothetical call with a decoded scalar. -/
inductive PopArg : Type
  | popsList : PopArg
  | jval : JVal → PopArg

/-- One line plotted on the axes: the raw series (years against the raw
`populations` entries) or the average series (years against rationals). -/
inductive PlotLine : Type
  | rawLine : List Int → List PopArg → PlotLine
  | avgLine : List Int → List ℚ → PlotLine

/-- The content of the matplotlib axes: the list of plotted lines. -/
abbrev Canvas : Type := List PlotLine

/-- The module-level mutable state of the script. -/
structure AggState : Type where
  year_list : DMap Int
  population_list : DMap ℚ
  year_count : DMap Nat
  avg_population : DMap ℚ
  years : List Int
  populations : List PopArg
  canvas : Canvas

/-- The state at interpreter startup: every dict empty, lists empty, a
fresh axes with nothing drawn. -/
def initialState : AggState :=
  { year_list := { keys := [], val := fun _ => 0 },
    population_list := { keys := [], val := fun _ => 0 },
    year_count := { keys := [], val := fun _ => 0 },
    avg_population := { keys := [], val := fun _ => 0 },
    years := [],
    populations := [],
    canvas := [] }

/-- The list comprehension at line 113 reads `avg_population[y]` for every
`y` in `years`; on a `defaultdict` each read inserts a missing key. -/
def ensureKeys (d : DMap ℚ) (ks : List Int) : DMap ℚ :=
  ks.foldl (fun m k => m.touch k) d

/-- Lines 109-113 of `update_chart`: `ax.clear()` erases the previous
drawing, then the raw series and the average series are plotted.  The
resulting axes content therefore does not depend on `prev`. -/
def renderChart (ys : List Int) (ps : List PopArg) (avg : Int → ℚ)
    (prev : Canvas) : Canvas :=
  match prev with
  | _ => [PlotLine.rawLine ys ps, PlotLine.avgLine ys (ys.map avg)]

/-- `update_chart(year, population)`, lines 100-134.  Appends to `years`
and `populations`, increments `year_count[year]`, then executes
`population_list[year] += population`: the `defaultdict` read inserts the
key, and the addition raises `TypeError` when the argument is the
`populations` list object (the actual call site) or any non-number.  Only
on a numeric argument does control reach the average computation at line
106 and the redraw at lines 109-134. -/
def update_chart (st : AggState) (year : Int) (popArg : PopArg) :
    AggState × Option PyErr :=
  let st1 := { st with years := st.years ++ [year],
                       populations := st.populations ++ [popArg] }
  let st2 := { st1 with
    year_count := st1.year_count.set year (st1.year_count.val year + 1) }
  let acc := st2.population_list.val year
  match popArg with
  | PopArg.popsList =>
    ({ st2 with population_list := st2.population_list.touch year },
      some PyErr.typeErr)
  | PopArg.jval v =>
    match pyAddNum acc v with
    | none =>
      ({ st2 with population_list := st2.population_list.touch year },
        some PyErr.typeErr)
    | some acc2 =>
      let st3 := { st2 with
        population_list := st2.population_list.set year acc2 }
      let avg := acc2 / (st3.year_count.val year : ℚ)
      let st4 := { st3 with
        avg_population := st3.avg_population.set year avg }
      let st5 := { st4 with
        avg_population := ensureKeys st4.avg_population st4.years }
      let drawn := renderChart st5.years st5.populations
        st5.avg_population.val st5.canvas
      ({ st5 with canvas := drawn }, none)

/-- Lines 170-173 of `process_message`: when both the year and the value
are truthy, set `year_list[year]`, add the value to
`population_list[year]` (the read inserts the key before the addition can
raise `TypeError`), and increment `year_count[year]`. -/
def accumStep (st : AggState) (year : Int) (pop : JVal) :
    AggState × Option PyErr :=
  if year ≠ 0 ∧ pyTruthy pop then
    let st1 := { st with year_list := st.year_list.set year year }
    let acc := st1.population_list.val year
    match pyAddNum acc pop with
    | none =>
      ({ st1 with population_list := st1.population_list.touch year },
        some PyErr.typeErr)
    | some acc2 =>
      let st2 := { st1 with
        population_list := st1.population_list.set year acc2 }
      ({ st2 with
        year_count := st2.year_count.set year (st2.year_count.val year + 1) },
        none)
  else (st, none)

/-- How the `try` block of `process_message` finishes. -/
inductive TryResult : Type
  | done : TryResult
  | nonDict : TryResult
  | raised : PyErr → TryResult
deriving DecidableEq

/-- The `try` block of `process_message` (lines 153-184) on the decode
result of the payload (`none` models a `json.JSONDecodeError`): check the
value is a dict, read `date` and `value` (raising `KeyError` when absent),
convert the date with `int()`, run the accumulation step, then call
`update_chart(year, populations)` — passing the global `populations` list,
not the record's value.  The returned state includes any mutations made
before an exception was raised. -/
def processTry (st : AggState) (msg : Option JVal) : AggState × TryResult :=
  match msg with
  | none => (st, TryResult.raised PyErr.jsonDecode)
  | some v =>
    match v with
    | JVal.obj fields =>
      match lookupLast "date" fields with
      | none => (st, TryResult.raised PyErr.keyErr)
      | some dv =>
        match pyInt dv with
        | none => (st, TryResult.raised (pyIntErr dv))
        | some year =>
          match lookupLast "value" fields with
          | none => (st, TryResult.raised PyErr.keyErr)
          | some pop =>
            match accumStep st year pop with
            | (st1, some e) => (st1, TryResult.raised e)
            | (st1, none) =>
              match update_chart st1 year PopArg.popsList with
              | (st2, some e) => (st2, TryResult.raised e)
              | (st2, none) => (st2, TryResult.done)
    | _ => (st, TryResult.nonDict)

/-- What `process_message` reports about a single payload. -/
inductive Outcome : Type
  | ok : Outcome
  | loggedDecodeError : Outcome
  | loggedNonDict : Outcome
  | loggedExn : PyErr → Outcome
deriving DecidableEq

/-- `process_message(message)`, lines 146-189: the `try` block wrapped in
`except json.JSONDecodeError` and `except Exception` handlers.  A raised
exception caught by a handler is logged and the (possibly partially
mutated) state is kept; an exception no handler catches would propagate to
the caller as `Except.error`. -/
def process_message (st : AggState) (msg : Option JVal) :
    Except PyErr (AggState × Outcome) :=
  match processTry st msg with
  | (st1, TryResult.done) => Except.ok (st1, Outcome.ok)
  | (st1, TryResult.nonDict) => Except.ok (st1, Outcome.loggedNonDict)
  | (st1, TryResult.raised PyErr.jsonDecode) =>
    Except.ok (st1, Outcome.loggedDecodeError)
  | (st1, TryResult.raised e) =>
    if isPyException e then Except.ok (st1, Outcome.loggedExn e)
    else Except.error e

/-- The state after `process_message` (the error case never occurs, by
`c3`, but a total projection is convenient). -/
def procState (st : AggState) (msg : Option JVal) : AggState :=
  match process_message st msg with
  | Except.ok (s, _) => s
  | Except.error _ => st

/-- Process a sequence of decoded payloads in arrival order. -/
def processAll (st : AggState) (msgs : List (Option JVal)) : AggState :=
  msgs.foldl procState st

/-- A population record as the producer emits it: `date` a year string,
`value` a number (the other fields of the real messages are ignored by the
consumer and omitted here). -/
def popRecord (date : String) (value : ℚ) : JVal :=
  JVal.obj [("date", JVal.str date), ("value", JVal.num value)]

/-- A record the spec calls valid: a JSON object whose `date` converts to
an integer and whose `value` is a (non-null) number. -/
def validRec : JVal → Bool
  | JVal.obj fields =>
    (match lookupLast "date" fields with
     | some dv => (pyInt dv).isSome
     | none => false) &&
    (match lookupLast "value" fields with
     | some (JVal.num _) => true
     | _ => false)
  | _ => false

/-- The year of a record, as `int(data['date'])` computes it. -/
def recYear : JVal → Int
  | JVal.obj fields =>
    (match lookupLast "date" fields with
     | some dv => (pyInt dv).getD 0
     | none => 0)
  | _ => 0

/-- A payload malformed in one of the ways that happen before any state
mutation: not decodable as JSON, or an object with no `date` field, a
`date` that `int()` rejects, or no `value` field. -/
def malformedNoTouch : Option JVal → Prop
  | none => True
  | some (JVal.obj fields) =>
    lookupLast "date" fields = none ∨
    (∃ dv, lookupLast "date" fields = some dv ∧ pyInt dv = none) ∨
    lookupLast "value" fields = none
  | some _ => False

/-- Is the decoded value a Python dict (`isinstance(message_dict, dict)`)? -/
def isObjB : JVal → Bool
  | JVal.obj _ => true
  | _ => false

/-- The invariant of claim C7: every year present in the count mapping has
count at least 1. -/
def countInvar (d : DMap Nat) : Prop :=
  ∀ k ∈ d.keys, 1 ≤ d.val k

/-- How the message loop of `main` (lines 217-230) exits: the consumer
iterator is exhausted, a `KeyboardInterrupt` arrives, or consuming raises
some other exception. -/
inductive LoopExit : Type
  | normalEnd : LoopExit
  | keyboardInterrupt : LoopExit
  | consumeError : LoopExit
deriving DecidableEq

/-- The observable steps of `main` and of the `__main__` block. -/
inductive MainEvent : Type
  | startLog : MainEvent
  | pollMessages : MainEvent
  | warnInterrupted : MainEvent
  | logConsumeError : MainEvent
  | closeConsumer : MainEvent
  | logClosed : MainEvent
  | logEnd : MainEvent
  | interactiveOff : MainEvent
  | showFinalChart : MainEvent
deriving DecidableEq

/-- The event trace of `main` (lines 197-232): the polling loop inside
`try`, an `except` clause depending on how the loop exits, and a `finally`
that closes the Kafka consumer on every path, then the final END log. -/
def mainEvents (e : LoopExit) : List MainEvent :=
  [MainEvent.startLog, MainEvent.pollMessages] ++
  (match e with
   | LoopExit.normalEnd => []
   | LoopExit.keyboardInterrupt => [MainEvent.warnInterrupted]
   | LoopExit.consumeError => [MainEvent.logConsumeError]) ++
  [MainEvent.closeConsumer, MainEvent.logClosed, MainEvent.logEnd]

/-- The event trace of the whole program run (lines 239-248): `main`, then
`plt.ioff()` and the final static `plt.show()`. -/
def programEvents (e : LoopExit) : List MainEvent :=
  mainEvents e ++ [MainEvent.interactiveOff, MainEvent.showFinalChart]

/-- The state `processTry` ends in once `date` and `value` have been
extracted successfully: the accumulation step, then — unless accumulation
raised — `update_chart` called on the `populations` list object. -/
def postState (st : AggState) (year : Int) (pop : JVal) : AggState :=
  match accumStep st year pop with
  | (st1, some _) => st1
  | (st1, none) => (update_chart st1 year PopArg.popsList).1

/-- The state after the two records of end-to-end scenario 2 of the spec. -/
def c5run : AggState :=
  processAll initialState
    [some (popRecord "2020" 331526933), some (popRecord "2020" 330000000)]

attribute [local semireducible] Rat.add Rat.sub Rat.mul Rat.inv

theorem update_chart_popsList (st : AggState) (y : Int) :
    update_chart st y PopArg.popsList =
      ({ st with years := st.years ++ [y],
                 populations := st.populations ++ [PopArg.popsList],
                 year_count := st.year_count.set y (st.year_count.val y + 1),
                 population_list := st.population_list.touch y },
        some PyErr.typeErr) := rfl

theorem accumStep_none_or_typeErr (st : AggState) (y : Int) (pop : JVal) :
    (accumStep st y pop).2 = none ∨
      (accumStep st y pop).2 = some PyErr.typeErr := by
  unfold accumStep
  split
  · cases hA : pyAddNum (st.population_list.val y) pop <;> simp [hA]
  · simp

theorem accumStep_falsy (st : AggState) (y : Int) (pop : JVal)
    (h : y = 0 ∨ pyTruthy pop = false) : accumStep st y pop = (st, none) := by
  unfold accumStep
  rw [if_neg]
  rintro ⟨hy, hp⟩
  rcases h with h | h
  · exact hy h
  · rw [h] at hp; cases hp

theorem processTry_obj (st : AggState) (fields : List (String × JVal))
    (dv : JVal) (y : Int) (pop : JVal)
    (hd : lookupLast "date" fields = some dv)
    (hy : pyInt dv = some y)
    (hv : lookupLast "value" fields = some pop) :
    processTry st (some (JVal.obj fields)) =
      (postState st y pop, TryResult.raised PyErr.typeErr) := by
  unfold postState
  simp only [processTry, hd, hy, hv]
  rcases hA : accumStep st y pop with ⟨st1, e⟩
  cases e with
  | none => simp [update_chart_popsList]
  | some e =>
    rcases accumStep_none_or_typeErr st y pop with h2 | h2 <;>
      rw [hA] at h2 <;> simp at h2
    simp [h2]

theorem procState_obj (st : AggState) (fields : List (String × JVal))
    (dv : JVal) (y : Int) (pop : JVal)
    (hd : lookupLast "date" fields = some dv)
    (hy : pyInt dv = some y)
    (hv : lookupLast "value" fields = some pop) :
    procState st (some (JVal.obj fields)) = postState st y pop := by
  unfold procState process_message
  rw [processTry_obj st fields dv y pop hd hy hv]
  rfl

theorem accumStep_num_ok (st : AggState) (y : Int) (q : ℚ) :
    (accumStep st y (JVal.num q)).2 = none ∧
      (accumStep st y (JVal.num q)).1.years = st.years ∧
      (accumStep st y (JVal.num q)).1.populations = st.populations := by
  unfold accumStep
  split
  · simp [pyAddNum]
  · simp

theorem postState_num_series (st : AggState) (y : Int) (q : ℚ) :
    (postState st y (JVal.num q)).years = st.years ++ [y] ∧
      (postState st y (JVal.num q)).populations =
        st.populations ++ [PopArg.popsList] := by
  obtain ⟨he, hys, hps⟩ := accumStep_num_ok st y q
  unfold postState
  rcases hA : accumStep st y (JVal.num q) with ⟨st1, e⟩
  rw [hA] at he hys hps
  simp at he hys hps
  subst he
  simp [update_chart_popsList, hys, hps]

theorem process_message_none (st : AggState) :
    process_message st none = Except.ok (st, Outcome.loggedDecodeError) := rfl

theorem process_message_nonObj (st : AggState) (v : JVal)
    (h : isObjB v = false) :
    process_message st (some v) = Except.ok (st, Outcome.loggedNonDict) := by
  cases v <;> first | rfl | simp [isObjB] at h

theorem process_message_missingDate (st : AggState)
    (fields : List (String × JVal))
    (hd : lookupLast "date" fields = none) :
    process_message st (some (JVal.obj fields)) =
      Except.ok (st, Outcome.loggedExn PyErr.keyErr) := by
  simp only [process_message, processTry, hd]
  rfl

theorem process_message_badDate (st : AggState)
    (fields : List (String × JVal)) (dv : JVal)
    (hd : lookupLast "date" fields = some dv) (hy : pyInt dv = none) :
    process_message st (some (JVal.obj fields)) =
      Except.ok (st, Outcome.loggedExn (pyIntErr dv)) := by
  cases dv <;>
    simp_all [process_message, processTry, pyInt, pyIntErr, isPyException]

theorem process_message_missingValue (st : AggState)
    (fields : List (String × JVal)) (dv : JVal) (y : Int)
    (hd : lookupLast "date" fields = some dv) (hy : pyInt dv = some y)
    (hv : lookupLast "value" fields = none) :
    process_message st (some (JVal.obj fields)) =
      Except.ok (st, Outcome.loggedExn PyErr.keyErr) := by
  simp only [process_message, processTry, hd, hy, hv]
  rfl

theorem process_message_obj_ok (st : AggState)
    (fields : List (String × JVal)) (dv : JVal) (y : Int) (pop : JVal)
    (hd : lookupLast "date" fields = some dv) (hy : pyInt dv = some y)
    (hv : lookupLast "value" fields = some pop) :
    process_message st (some (JVal.obj fields)) =
      Except.ok (postState st y pop, Outcome.loggedExn PyErr.typeErr) := by
  unfold process_message
  rw [processTry_obj st fields dv y pop hd hy hv]
  rfl

theorem procState_cases (st : AggState) (msg : Option JVal) :
    procState st msg = st ∨
      ∃ y pop, procState st msg = postState st y pop := by
  cases msg with
  | none => exact Or.inl rfl
  | some v =>
    cases hobj : isObjB v with
    | false =>
      left
      unfold procState
      rw [process_message_nonObj st v hobj]
    | true =>
      cases v with
      | obj fields =>
        rcases hd : lookupLast "date" fields with _ | dv
        · left; unfold procState; rw [process_message_missingDate st fields hd]
        · rcases hy : pyInt dv with _ | y
          · left; unfold procState; rw [process_message_badDate st fields dv hd hy]
          · rcases hv : lookupLast "value" fields with _ | pop
            · left; unfold procState
              rw [process_message_missingValue st fields dv y hd hy hv]
            · right
              exact ⟨y, pop, procState_obj st fields dv y pop hd hy hv⟩
      | null => simp [isObjB] at hobj
      | boolean b => simp [isObjB] at hobj
      | num q => simp [isObjB] at hobj
      | str s => simp [isObjB] at hobj
      | arr l => simp [isObjB] at hobj

theorem countInvar_incr {d : DMap Nat} (k : Int) (h : countInvar d) :
    countInvar (d.set k (d.val k + 1)) := by
  intro j hj
  by_cases hk : j = k
  · have hv : (d.set k (d.val k + 1)).val j = d.val k + 1 := by
      simp [DMap.set, hk]
    rw [hv]
    omega
  · have hjk : j ∈ d.keys := by
      simp only [DMap.set] at hj
      split at hj
      · exact hj
      · rcases List.mem_append.mp hj with h1 | h1
        · exact h1
        · simp at h1
          exact absurd h1 hk
    have hge := h j hjk
    simpa [DMap.set, hk] using hge

theorem accumStep_count (st : AggState) (y : Int) (pop : JVal) :
    (accumStep st y pop).1.year_count = st.year_count ∨
      (accumStep st y pop).1.year_count =
        st.year_count.set y (st.year_count.val y + 1) := by
  unfold accumStep
  split
  · dsimp only
    cases hA : pyAddNum (st.population_list.val y) pop with
    | none => simp [hA]
    | some acc2 => simp [hA]
  · simp

theorem postState_countInvar (st : AggState) (y : Int) (pop : JVal)
    (h : countInvar st.year_count) :
    countInvar (postState st y pop).year_count := by
  unfold postState
  have hcnt := accumStep_count st y pop
  rcases hA : accumStep st y pop with ⟨st1, e⟩
  rw [hA] at hcnt
  simp at hcnt
  have h1 : countInvar st1.year_count := by
    rcases hcnt with hc | hc
    · rw [hc]; exact h
    · rw [hc]; exact countInvar_incr y h
  cases e with
  | some e => exact h1
  | none =>
    have hc2 : ((update_chart st1 y PopArg.popsList).1).year_count =
        st1.year_count.set y (st1.year_count.val y + 1) := by
      rw [update_chart_popsList]
    rw [hc2]
    exact countInvar_incr y h1

theorem procState_validRec (st : AggState) (r : JVal)
    (h : validRec r = true) :
    (procState st (some r)).years = st.years ++ [recYear r] ∧
      (procState st (some r)).populations =
        st.populations ++ [PopArg.popsList] := by
  cases r with
  | obj fields =>
    rcases hd : lookupLast "date" fields with _ | dv
    · simp [validRec, hd] at h
    · rcases hy : pyInt dv with _ | y
      · simp [validRec, hd, hy] at h
      · rcases hv : lookupLast "value" fields with _ | pop
        · simp [validRec, hd, hv] at h
        · cases pop with
          | num q =>
            rw [procState_obj st fields dv y (JVal.num q) hd hy hv]
            have hry : recYear (JVal.obj fields) = y := by
              simp [recYear, hd, hy]
            rw [hry]
            exact postState_num_series st y q
          | null => simp [validRec, hd, hv] at h
          | boolean b => simp [validRec, hd, hv] at h
          | str s => simp [validRec, hd, hv] at h
          | arr l => simp [validRec, hd, hv] at h
          | obj l => simp [validRec, hd, hv] at h
  | null => simp [validRec] at h
  | boolean b => simp [validRec] at h
  | num q => simp [validRec] at h
  | str s => simp [validRec] at h
  | arr l => simp [validRec] at h

theorem processAll_validRec (recs : List JVal) :
    ∀ st : AggState, (∀ r ∈ recs, validRec r = true) →
      (processAll st (recs.map some)).years = st.years ++ recs.map recYear ∧
      (processAll st (recs.map some)).populations =
        st.populations ++ recs.map (fun _ => PopArg.popsList) := by
  induction recs with
  | nil =>
    intro st h
    simp [processAll]
  | cons r rs ih =>
    intro st h
    have hr := h r (List.mem_cons_self r rs)
    have hrs : ∀ x ∈ rs, validRec x = true :=
      fun x hx => h x (List.mem_cons_of_mem r hx)
    obtain ⟨hys, hps⟩ := procState_validRec st r hr
    obtain ⟨hys2, hps2⟩ := ih (procState st (some r)) hrs
    have hstep : processAll st ((r :: rs).map some) =
        processAll (procState st (some r)) (rs.map some) := by
      simp [processAll]
    constructor
    · rw [hstep, hys2, hys]
      simp
    · rw [hstep, hps2, hps]
      simp

/-- Claim C1: for every sequence of valid records processed in arrival
order, after each record with year Y and population P the stored average
for Y equals the arithmetic mean of the populations seen for Y.  The code
violates this: evaluated on one valid record (year 2020, population 5)
from the initial state, `avg_population` still has no keys and returns its
default 0, not the mean 5 — `process_message` calls
`update_chart(year, populations)` with the whole list, so `update_chart`
raises `TypeError` at `population_list[year] += population` before line
106 ever assigns an average. -/
theorem c1_average_never_stored :
    (procState initialState
          (some (popRecord "2020" 5))).avg_population.keys = [] ∧
      (procState initialState
          (some (popRecord "2020" 5))).avg_population.val 2020 = 0 ∧
      (procState initialState
          (some (popRecord "2020" 5))).avg_population.val 2020 ≠ 5 :=
  ⟨by decide, by decide, by decide⟩

/-- Counterexample to claim C2 as stated: the payload
`{"date": "2020", "value": null}` has a wrong-typed `value`, yet
processing it changes the aggregation state — the `years` history gains an
entry and `year_count[2020]` becomes 1, because the truthiness guard only
skips the accumulation block and `update_chart` still runs. -/
theorem c2_counterexample :
    (procState initialState
          (some (JVal.obj
            [("date", JVal.str "2020"), ("value", JVal.null)]))).years ≠
        initialState.years ∧
      (procState initialState
          (some (JVal.obj
            [("date", JVal.str "2020"),
              ("value", JVal.null)]))).year_count.val 2020 ≠
        initialState.year_count.val 2020 :=
  ⟨by decide, by decide⟩

/-- Claim C2 (amended): for every payload that is not well-formed JSON, or
is a JSON object missing the `date` field, or whose `date` cannot be
converted by `int()`, or missing the `value` field, processing leaves the
entire aggregator state unchanged (the failure happens before any
mutation).  The original claim also covered a present `value` of the wrong
type, which the code does not honour (see the counterexample). -/
theorem c2_malformed_state_unchanged (st : AggState) (msg : Option JVal)
    (h : malformedNoTouch msg) :
    ∃ o, process_message st msg = Except.ok (st, o) := by
  cases msg with
  | none => exact ⟨Outcome.loggedDecodeError, process_message_none st⟩
  | some v =>
    cases v with
    | obj fields =>
      rcases hd : lookupLast "date" fields with _ | dv
      · exact ⟨_, process_message_missingDate st fields hd⟩
      · rcases hy : pyInt dv with _ | y
        · exact ⟨_, process_message_badDate st fields dv hd hy⟩
        · rcases hv : lookupLast "value" fields with _ | pop
          · exact ⟨_, process_message_missingValue st fields dv y hd hy hv⟩
          · exfalso
            rcases h with h1 | ⟨dv2, hd2, hy2⟩ | h3
            · rw [hd] at h1; cases h1
            · rw [hd] at hd2
              injection hd2 with he
              rw [← he] at hy2
              rw [hy] at hy2
              cases hy2
            · rw [hv] at h3; cases h3
    | null => cases h
    | boolean b => cases h
    | num q => cases h
    | str s => cases h
    | arr l => cases h

/-- Witness for C2: the object payload `{"value": 1}` (missing `date`) is
malformed in the amended sense and leaves the initial state unchanged. -/
theorem c2_malformed_state_unchanged_witness :
    malformedNoTouch (some (JVal.obj [("value", JVal.num 1)])) ∧
      ∃ o, process_message initialState
          (some (JVal.obj [("value", JVal.num 1)])) =
        Except.ok (initialState, o) :=
  ⟨Or.inl rfl,
    c2_malformed_state_unchanged initialState
      (some (JVal.obj [("value", JVal.num 1)])) (Or.inl rfl)⟩

/-- Claim C3: processing a single payload never propagates an exception to
the caller — every decode, validation or other failure is caught by the
`except` clauses of `process_message` and processing continues.  In the
embedding, `process_message` always returns `Except.ok`. -/
theorem c3_no_exception_escapes (st : AggState) (msg : Option JVal) :
    ∃ r, process_message st msg = Except.ok r := by
  cases msg with
  | none => exact ⟨(st, Outcome.loggedDecodeError), process_message_none st⟩
  | some v =>
    cases hobj : isObjB v with
    | false =>
      exact ⟨(st, Outcome.loggedNonDict), process_message_nonObj st v hobj⟩
    | true =>
      cases v with
      | obj fields =>
        rcases hd : lookupLast "date" fields with _ | dv
        · exact ⟨_, process_message_missingDate st fields hd⟩
        · rcases hy : pyInt dv with _ | y
          · exact ⟨_, process_message_badDate st fields dv hd hy⟩
          · rcases hv : lookupLast "value" fields with _ | pop
            · exact ⟨_, process_message_missingValue st fields dv y hd hy hv⟩
            · exact ⟨_, process_message_obj_ok st fields dv y pop hd hy hv⟩
      | null => simp [isObjB] at hobj
      | boolean b => simp [isObjB] at hobj
      | num q => simp [isObjB] at hobj
      | str s => simp [isObjB] at hobj
      | arr l => simp [isObjB] at hobj

/-- Counterexample to claim C4 as stated: after one valid record
(year 2020, population 5) the single `populations` entry of the history is
the `populations` list object itself, not the population value 5, so the
history is not a sequence of (year, population) pairs. -/
theorem c4_counterexample :
    (procState initialState (some (popRecord "2020" 5))).populations =
        [PopArg.popsList] ∧
      PopArg.popsList ≠ PopArg.jval (JVal.num 5) := by
  refine ⟨rfl, ?_⟩
  intro hcontra
  cases hcontra

/-- Claim C4 (amended): after processing N valid records from the initial
state, the `years` history holds exactly the N record years in arrival
order with no deduplication, and the `populations` history also has
length N — but each of its entries is the self-referential `populations`
list object rather than the record's population value. -/
theorem c4_history_length_order (recs : List JVal)
    (h : ∀ r ∈ recs, validRec r = true) :
    (processAll initialState (recs.map some)).years = recs.map recYear ∧
      (processAll initialState (recs.map some)).years.length = recs.length ∧
      (processAll initialState (recs.map some)).populations.length =
        recs.length ∧
      ∀ e ∈ (processAll initialState (recs.map some)).populations,
        e = PopArg.popsList := by
  obtain ⟨hys, hps⟩ := processAll_validRec recs initialState h
  have hys2 : (processAll initialState (recs.map some)).years =
      recs.map recYear := by
    rw [hys]; rfl
  have hps2 : (processAll initialState (recs.map some)).populations =
      recs.map (fun _ => PopArg.popsList) := by
    rw [hps]; rfl
  refine ⟨hys2, by rw [hys2]; simp, by rw [hps2]; simp, ?_⟩
  intro e he
  rw [hps2] at he
  rcases List.mem_map.mp he with ⟨a, _, hae⟩
  exact hae.symm

/-- Witness for C4: two valid records for years 2020 and 2021. -/
theorem c4_history_length_order_witness :
    (∀ r ∈ [popRecord "2020" 5, popRecord "2021" 7], validRec r = true) ∧
      ((processAll initialState
            ([popRecord "2020" 5, popRecord "2021" 7].map some)).years =
          [popRecord "2020" 5, popRecord "2021" 7].map recYear ∧
        (processAll initialState
            ([popRecord "2020" 5,
              popRecord "2021" 7].map some)).years.length = 2 ∧
        (processAll initialState
            ([popRecord "2020" 5,
              popRecord "2021" 7].map some)).populations.length = 2 ∧
        ∀ e ∈ (processAll initialState
            ([popRecord "2020" 5, popRecord "2021" 7].map some)).populations,
          e = PopArg.popsList) :=
  ⟨by decide, c4_history_length_order [popRecord "2020" 5, popRecord "2021" 7]
    (by decide)⟩

/-- Claim C5: the spec's end-to-end scenario 2 expects, after two records
for year 2020 with populations 331526933 and 330000000, a count of 2 and a
stored average of 330763466.5.  The code violates this: the count for 2020
is 4 (it is incremented once in `process_message` and again in
`update_chart` for each record), the average mapping is still empty (its
default 0 is returned, not the mean 661526933/2), and only the history has
the expected two entries for 2020. -/
theorem c5_two_records_eval :
    c5run.year_count.val 2020 = 4 ∧
      c5run.avg_population.keys = [] ∧
      c5run.avg_population.val 2020 ≠ 661526933 / 2 ∧
      c5run.years = [2020, 2020] :=
  ⟨by decide, by decide, by decide, by decide⟩

/-- Claim C6: rendering is idempotent — because `ax.clear()` runs before
the two `ax.plot` calls, the plotted series are a function of the history
and averages alone: re-rendering on top of a previous rendering yields the
same canvas, and the result never depends on what was drawn before. -/
theorem c6_render_idempotent (ys : List Int) (ps : List PopArg)
    (avg : Int → ℚ) (prev1 prev2 : Canvas) :
    renderChart ys ps avg (renderChart ys ps avg prev1) =
        renderChart ys ps avg prev1 ∧
      renderChart ys ps avg prev1 = renderChart ys ps avg prev2 :=
  ⟨rfl, rfl⟩

/-- Claim C7: every processing step preserves the invariant that every
year present as a key of `year_count` has a stored count of at least 1:
the only writes to `year_count` are increments `year_count[year] += 1`. -/
theorem c7_count_invariant (st : AggState) (msg : Option JVal)
    (h : countInvar st.year_count) :
    countInvar (procState st msg).year_count := by
  rcases procState_cases st msg with hc | ⟨y, pop, hc⟩
  · rw [hc]; exact h
  · rw [hc]; exact postState_countInvar st y pop h

/-- Witness for C7: the empty initial state satisfies the invariant, and
so does the state after one valid record. -/
theorem c7_count_invariant_witness :
    countInvar initialState.year_count ∧
      countInvar
        (procState initialState (some (popRecord "2020" 5))).year_count := by
  have h0 : countInvar initialState.year_count := by
    intro k hk
    simp [initialState] at hk
  exact ⟨h0, c7_count_invariant initialState (some (popRecord "2020" 5)) h0⟩

/-- Claim C8: on every exit of the message loop — normal end of input,
`KeyboardInterrupt`, or an error raised while consuming — the `finally`
block closes the Kafka consumer, and the program then falls through to the
final static chart display, with the close preceding the display. -/
theorem c8_consumer_closed_every_exit (e : LoopExit) :
    MainEvent.closeConsumer ∈ mainEvents e ∧
      List.Sublist [MainEvent.closeConsumer, MainEvent.showFinalChart]
        (programEvents e) := by
  cases e <;> exact ⟨by decide, by decide⟩

/-- Claim C9: for a payload parsing to an object whose `date` converts to
an integer and whose `value` is present, if the year or the value is falsy
the accumulation block (lines 170-173) leaves the state — in particular
the per-year sum and count mappings — completely untouched, yet
`update_chart` is still invoked: the try block ends in exactly the state
`update_chart` produces from the unmodified state (and in the `TypeError`
that call raises). -/
theorem c9_falsy_skips_accum_chart_invoked (st : AggState)
    (fields : List (String × JVal)) (dv : JVal) (y : Int) (pop : JVal)
    (hd : lookupLast "date" fields = some dv)
    (hy : pyInt dv = some y)
    (hv : lookupLast "value" fields = some pop)
    (hfalsy : y = 0 ∨ pyTruthy pop = false) :
    accumStep st y pop = (st, none) ∧
      processTry st (some (JVal.obj fields)) =
        ((update_chart st y PopArg.popsList).1,
          TryResult.raised PyErr.typeErr) := by
  have hacc := accumStep_falsy st y pop hfalsy
  refine ⟨hacc, ?_⟩
  rw [processTry_obj st fields dv y pop hd hy hv]
  unfold postState
  rw [hacc]

/-- Witness for C9: the payload `{"date": "2020", "value": null}` has a
falsy value; accumulation is skipped and `update_chart` still runs. -/
theorem c9_falsy_skips_accum_chart_invoked_witness :
    accumStep initialState 2020 JVal.null = (initialState, none) ∧
      processTry initialState
          (some (JVal.obj
            [("date", JVal.str "2020"), ("value", JVal.null)])) =
        ((update_chart initialState 2020 PopArg.popsList).1,
          TryResult.raised PyErr.typeErr) :=
  c9_falsy_skips_accum_chart_invoked initialState
    [("date", JVal.str "2020"), ("value", JVal.null)] (JVal.str "2020") 2020
    JVal.null rfl rfl rfl (Or.inr rfl)

/-- Claim C10: for every payload that is well-formed JSON but not a JSON
object, `process_message` logs the non-dict error and returns without
raising, leaving the entire aggregation state unchanged. -/
theorem c10_non_dict_logged_unchanged (st : AggState) (v : JVal)
    (h : isObjB v = false) :
    process_message st (some v) = Except.ok (st, Outcome.loggedNonDict) :=
  process_message_nonObj st v h

/-- Witness for C10: a JSON array payload. -/
theorem c10_non_dict_logged_unchanged_witness :
    isObjB (JVal.arr []) = false ∧
      process_message initialState (some (JVal.arr [])) =
        Except.ok (initialState, Outcome.loggedNonDict) :=
  ⟨rfl, c10_non_dict_logged_unchanged initialState (JVal.arr []) rfl⟩
